import Mathlib

/-!
A verification development for the `morph_blocks` QGIS Processing scripts.

The repository's `morph_blocks.py` defines `MorphBlocks.processAlgorithm`, a
strictly linear pipeline of calls to native QGIS geoprocessing algorithms:
fixgeometries, extractbyextent, reprojectlayer, dissolve, buffer (twice),
pointonsurface, joinattributesbylocation, joinattributestable, dissolve by
field, addfieldtoattributestable (twice), followed by a loop writing the
result features to the primary output sink.  A cancellation flag is polled
between every pair of consecutive steps.

This file shallowly embeds that pipeline.  Geometries are modelled as
multipart one-dimensional polygons: finite unions of closed integer
intervals on an axis.  On this domain the external geometry services used
by the script (union/dissolve, signed buffering, point-on-surface,
point-in-polygon joins) have exact executable definitions: the erosion of a
union of separated closed intervals is the union of the per-component
erosions, and the dilation of a union is the union of the dilations, so
the buffer-in/buffer-out clustering step is modelled faithfully.  Every
native algorithm is translated with exactly the option values the script
passes (`SEPARATE_DISJOINT:False`, `DISSOLVE:False`, `CLIP:False`,
`OPERATION:'+proj=noop'`, `METHOD`, `DISCARD_NONMATCHING:False`, ...).

The orchestration itself (parameter checks, the thirteen cancellation
checkpoints, the feature-sink writes, the final result dictionary) is
translated statement by statement into `processAlgorithm` below.
-/

namespace MorphBlocks

/-- A closed interval `[lo, hi]` on the working axis; the 1-D analogue of a
single polygon part.  An interval with `lo > hi` is an empty part. -/
structure Seg where
  lo : Int
  hi : Int
  deriving DecidableEq

/-- A part is a nonempty polygon part when `lo ≤ hi`. -/
def Seg.nonempty (s : Seg) : Bool := decide (s.lo ≤ s.hi)

/-- Two closed intervals intersect geometrically. -/
def segIntersects (a b : Seg) : Bool := decide (a.lo ≤ b.hi) && decide (b.lo ≤ a.hi)

/-- A (multi)polygon geometry: a finite list of parts. -/
abbrev Geometry := List Seg

/-- Insert a part into a sorted list of pairwise disjoint parts, merging any
parts it overlaps or touches.  Used to keep dissolved/buffered coverages in
normal form (the list of connected components, in increasing order). -/
def insertMerge : Seg → List Seg → List Seg
  | s, [] => [s]
  | s, t :: ts =>
    if s.hi < t.lo then s :: t :: ts
    else if t.hi < s.lo then t :: insertMerge s ts
    else insertMerge ⟨min s.lo t.lo, max s.hi t.hi⟩ ts

/-- Normal form of a geometry: drop empty parts and merge overlapping or
touching parts, yielding the sorted list of connected components of the
covered point set. -/
def normalize (g : Geometry) : Geometry :=
  (g.filter Seg.nonempty).foldl (fun acc s => insertMerge s acc) []

/-- Concatenation of the images of a list-valued function. -/
def concatMap {α β : Type} (f : α → List β) : List α → List β
  | [] => []
  | a :: l => f a ++ concatMap f l

/-- A vector feature: the stable `fid` attribute plus a polygon geometry.
The opaque rest of the attribute bag is irrelevant to every property
considered here and is omitted. -/
structure Feature where
  fid : Nat
  geom : Geometry
  deriving DecidableEq

/-- The input vector layer as seen through `parameterAsVectorLayer`:
a CRS (EPSG code), the attribute schema (field names), a wkb type tag and
the features. -/
structure SourceLayer where
  crs : Nat
  fields : List String
  wkbType : Nat
  features : List Feature
  deriving DecidableEq

/-- A point feature produced by `native:pointonsurface`: the originating
feature's `fid` and the representative point (`none` for an empty
geometry). -/
structure PointFeature where
  fid : Nat
  pt : Option Int
  deriving DecidableEq

/-- A point feature after `native:joinattributesbylocation` with prefix
`buffer_`: the joined `buffer_fid` is `none` when no polygon matched. -/
structure TaggedPoint where
  fid : Nat
  pt : Option Int
  buffer_fid : Option Nat
  deriving DecidableEq

/-- A footprint after `native:joinattributestable` copied `buffer_fid`
onto it. -/
structure TaggedFeature where
  fid : Nat
  geom : Geometry
  buffer_fid : Option Nat
  deriving DecidableEq

/-- A row of the dissolved block layer: the representative `fid` (the first
group member's attributes are kept by `native:dissolve`), the group's
`buffer_fid`, the dissolved geometry, and the fields appended afterwards by
`native:addfieldtoattributestable` together with their (NULL) values. -/
structure BlockRow where
  fid : Nat
  buffer_fid : Option Nat
  geom : Geometry
  added : List (String × Option Int)
  deriving DecidableEq

/-- `native:fixgeometries` with `METHOD:1` (structure repair): makes each
geometry valid without deleting any feature.  In the interval model a
geometry is invalid exactly when it carries degenerate (empty) parts, which
the repair drops. -/
def fixgeometries (fs : List Feature) : List Feature :=
  fs.map (fun f => ⟨f.fid, f.geom.filter Seg.nonempty⟩)

/-- `native:extractbyextent` with `CLIP:False`: a pure membership filter.
A feature is kept iff its geometry intersects the extent; kept features are
passed through with their geometry untouched. -/
def extractbyextent (spatial_extent : Seg) (fs : List Feature) : List Feature :=
  fs.filter (fun f => f.geom.any (fun s => s.nonempty && segIntersects s spatial_extent))

/-- `native:reprojectlayer` with `TARGET_CRS` EPSG 3857 and
`OPERATION:'+proj=noop'`: the explicitly requested noop coordinate
operation passes every coordinate through unchanged; only the layer CRS
label becomes 3857. -/
def reprojectlayerNoop (crs : Nat) (fs : List Feature) : Nat × List Feature :=
  (3857, fs)

/-- `native:dissolve` with `FIELD:[]` and `SEPARATE_DISJOINT:False`: the
union of all geometries is returned as ONE feature (multipart if the
coverage is disconnected), carrying the first feature's attributes. -/
def dissolve (fs : List Feature) : List Feature :=
  match fs with
  | [] => []
  | f :: _ => [⟨f.fid, normalize (concatMap Feature.geom fs)⟩]

/-- Signed offset of one interval part: dilation for a positive distance,
erosion for a negative one. -/
def bufferSeg (distance : Int) (s : Seg) : Seg := ⟨s.lo - distance, s.hi + distance⟩

/-- Signed buffer of a geometry.  On a normalized coverage the per-component
offset is the exact morphological erosion/dilation of the covered set; the
result is renormalized (components that merge are merged, components that
vanish are dropped). -/
def bufferGeom (distance : Int) (g : Geometry) : Geometry :=
  normalize (g.map (bufferSeg distance))

/-- `native:buffer` with `DISSOLVE:False` and `SEPARATE_DISJOINT:False`:
one output feature per input feature, attributes kept; disjoint parts of a
buffered result stay inside the one multipart feature. -/
def buffer (distance : Int) (fs : List Feature) : List Feature :=
  fs.map (fun f => ⟨f.fid, bufferGeom distance f.geom⟩)

/-- Representative point of a geometry: a point guaranteed to lie on the
geometry (`none` only for an empty geometry).  The model takes the left
endpoint of the first part. -/
def pointOnSurfaceGeom (g : Geometry) : Option Int := g.head?.map Seg.lo

/-- `native:pointonsurface` with `ALL_PARTS:False`: one representative point
per feature, attributes kept. -/
def pointonsurface (fs : List Feature) : List PointFeature :=
  fs.map (fun f => ⟨f.fid, pointOnSurfaceGeom f.geom⟩)

/-- Point-in-polygon test. -/
def ptInGeom (p : Int) (g : Geometry) : Bool :=
  g.any (fun s => decide (s.lo ≤ p) && decide (p ≤ s.hi))

/-- The polygon features of the join layer whose geometry contains the given
point feature's point. -/
def locMatches (c : PointFeature) (polys : List Feature) : List Feature :=
  polys.filter (fun b =>
    match c.pt with
    | none => false
    | some p => ptInGeom p b.geom)

/-- The output rows `native:joinattributesbylocation` produces for one
point feature: with `METHOD:0` a matched point is emitted once per matching
polygon, carrying that polygon's `fid` as `buffer_fid`; with
`DISCARD_NONMATCHING:False` an unmatched point is kept once, with a NULL
`buffer_fid`. -/
def locRows (polys : List Feature) (c : PointFeature) : List TaggedPoint :=
  match locMatches c polys with
  | [] => [⟨c.fid, c.pt, none⟩]
  | ms => ms.map (fun b => ⟨c.fid, c.pt, some b.fid⟩)

/-- `native:joinattributesbylocation` with `JOIN_FIELDS:['fid']`,
`METHOD:0`, `DISCARD_NONMATCHING:False` and `PREFIX:'buffer_'`. -/
def joinattributesbylocation (pts : List PointFeature) (polys : List Feature) : List TaggedPoint :=
  concatMap (locRows polys) pts

/-- The row `native:joinattributestable` produces for one footprint:
with `METHOD:1` the footprint gets the first matching point row's
`buffer_fid`; with `DISCARD_NONMATCHING:False` a footprint with no match is
kept, with a NULL `buffer_fid`. -/
def joinRow (pts : List TaggedPoint) (f : Feature) : TaggedFeature :=
  match pts.find? (fun c => c.fid == f.fid) with
  | none => ⟨f.fid, f.geom, none⟩
  | some c => ⟨f.fid, f.geom, c.buffer_fid⟩

/-- `native:joinattributestable` joining `fid = fid`, copying `buffer_fid`,
`METHOD:1` and `DISCARD_NONMATCHING:False`: every input footprint yields
exactly one output row. -/
def joinattributestable (fs : List Feature) (pts : List TaggedPoint) : List TaggedFeature :=
  fs.map (joinRow pts)

/-- The distinct `buffer_fid` values of a row list, in order of first
appearance.  NULL is an ordinary key, so all NULL rows share one group. -/
def groupKeys : List TaggedFeature → List (Option Nat)
  | [] => []
  | r :: rs => r.buffer_fid :: (groupKeys rs).filter (fun k => decide (k ≠ r.buffer_fid))

/-- The rows belonging to one dissolve group. -/
def groupRows (rows : List TaggedFeature) (k : Option Nat) : List TaggedFeature :=
  rows.filter (fun r => decide (r.buffer_fid = k))

/-- `native:dissolve` with `FIELD:['buffer_fid']`: one output feature per
distinct `buffer_fid` value (NULL included), carrying the union of the
group's geometries and the first group member's attributes. -/
def dissolveByBufferFid (rows : List TaggedFeature) : List BlockRow :=
  (groupKeys rows).map (fun k =>
    ⟨(match groupRows rows k with
      | [] => 0
      | r :: _ => r.fid), k, normalize (concatMap TaggedFeature.geom (groupRows rows k)), []⟩)

/-- `native:addfieldtoattributestable` with `FIELD_TYPE:0` (integer): adds
one more field of the given name to the table; the new field's value is
NULL on every row, nothing is computed. -/
def addfieldtoattributestable (fieldName : String) (rows : List BlockRow) : List BlockRow :=
  rows.map (fun r => ⟨r.fid, r.buffer_fid, r.geom, r.added ++ [(fieldName, none)]⟩)

/-- The output-writing loop's counter, translated from
`counter_features_output += counter_features_output` (starting at 0) once
per written feature. -/
def counter_features_output (rows : List BlockRow) : Nat :=
  rows.foldl (fun acc _ => acc + acc) 0

/-- The data path of the pipeline from the raw input features to the layer
`transformed_with_buffer_id` (the footprints tagged with their cluster id),
composed of exactly the native calls `processAlgorithm` makes, with the
same arguments. -/
def pipelineJoined (features : List Feature) (crs : Nat) (spatial_extent : Seg)
    (buffer_value : Int) : List TaggedFeature :=
  let repaired := fixgeometries features
  let clipped := extractbyextent spatial_extent repaired
  let transformed := (reprojectlayerNoop crs clipped).2
  let dissolved_1 := dissolve transformed
  let buffer_1 := buffer (-buffer_value) dissolved_1
  let buffer_2 := buffer buffer_value buffer_1
  let centroids := pointonsurface transformed
  let centroid_with_buffer_id := joinattributesbylocation centroids buffer_2
  joinattributestable transformed centroid_with_buffer_id

/-- The rows the pipeline finally writes to the primary sink: the tagged
footprints dissolved by `buffer_fid`, with the two integer fields appended
by the two `native:addfieldtoattributestable` calls (both named
`holes_count` in the script). -/
def blocksOf (features : List Feature) (crs : Nat) (spatial_extent : Seg)
    (buffer_value : Int) : List BlockRow :=
  addfieldtoattributestable "holes_count"
    (addfieldtoattributestable "holes_count"
      (dissolveByBufferFid (pipelineJoined features crs spatial_extent buffer_value)))

/-- The run-scoped observable state: the field schema the primary sink was
created with, the native steps executed so far, and the features written to
each of the three sinks. -/
structure RunState where
  sinkFields : List String
  stagesRun : List String
  outWrites : List BlockRow
  bufferWrites : List Feature
  centroidWrites : List PointFeature
  deriving DecidableEq

/-- The two fatal `QgsProcessingException` situations of the script. -/
inductive ProcErr where
  | invalidSource
  | invalidSink
  deriving DecidableEq

/-- Result of one `processAlgorithm` run.  `err` aborts before any native
step runs (the constructor carries no state: nothing was executed, nothing
was written).  `canceled k st` models the early `return` (Python `None`: no
result dictionary) taken at checkpoint `k`.  `done` carries the returned
dictionary of sink ids, the reported block count and the final state. -/
inductive RunOutcome where
  | err (e : ProcErr)
  | canceled (checkpoint : Nat) (st : RunState)
  | done (dest_id buffer_id centroids_id : String) (reportedBlocks : Nat) (st : RunState)
  deriving DecidableEq

/-- The error of an outcome, if any. -/
def errOf : RunOutcome → Option ProcErr
  | .err e => some e
  | .canceled _ _ => none
  | .done _ _ _ _ _ => none

/-- Features written to the primary output sink. -/
def outWritesOf : RunOutcome → List BlockRow
  | .err _ => []
  | .canceled _ st => st.outWrites
  | .done _ _ _ _ st => st.outWrites

/-- Features written to the optional buffer-polygon diagnostic sink. -/
def bufferWritesOf : RunOutcome → List Feature
  | .err _ => []
  | .canceled _ st => st.bufferWrites
  | .done _ _ _ _ st => st.bufferWrites

/-- Features written to the optional representative-point diagnostic sink. -/
def centroidWritesOf : RunOutcome → List PointFeature
  | .err _ => []
  | .canceled _ st => st.centroidWrites
  | .done _ _ _ _ st => st.centroidWrites

/-- The field schema the primary sink was declared with. -/
def sinkFieldsOf : RunOutcome → List String
  | .err _ => []
  | .canceled _ st => st.sinkFields
  | .done _ _ _ _ st => st.sinkFields

/-- The `Number of processed blocks` count reported at the end of a
completed run. -/
def reportedOf : RunOutcome → Option Nat
  | .err _ => none
  | .canceled _ _ => none
  | .done _ _ _ n _ => some n

/-- The twelve native processing steps, in execution order.  Checkpoint `k`
is polled after exactly the first `k` of them. -/
def stageNames : List String :=
  ["native:fixgeometries", "native:extractbyextent", "native:reprojectlayer",
   "native:dissolve", "native:buffer", "native:buffer", "native:pointonsurface",
   "native:joinattributesbylocation", "native:joinattributestable",
   "native:dissolve", "native:addfieldtoattributestable",
   "native:addfieldtoattributestable"]

/-- `MorphBlocks.processAlgorithm`, translated statement by statement.

`source` is the resolved input layer (`none` when `parameterAsVectorLayer`
fails); `sinkOk`, `sink_bufferOk` and `sink_centroidsOk` tell whether
`parameterAsSink` produced each sink (only the primary one is ever
checked); the three id strings are the sink destination ids; `isCanceled k`
is the value the cooperative cancellation flag shows at the k-th poll.

All three sinks are created (with the SOURCE schema, wkb type and CRS)
before the primary sink's null check; the twelve native steps then run with
one cancellation checkpoint before each and one more before the write loop;
the loop writes every feature of `dissolved_4` to the primary sink and
reports the counter; the diagnostic sinks are never written.  -/
def processAlgorithm (source : Option SourceLayer)
    (sinkOk sink_bufferOk sink_centroidsOk : Bool)
    (dest_id buffer_id centroids_id : String)
    (buffer_value : Int) (spatial_extent : Seg)
    (isCanceled : Nat → Bool) : RunOutcome :=
  match source with
  | none => .err .invalidSource
  | some src =>
    if sinkOk = false then .err .invalidSink
    else if isCanceled 0 then .canceled 0 ⟨src.fields, stageNames.take 0, [], [], []⟩
    else
    let repaired := fixgeometries src.features
    if isCanceled 1 then .canceled 1 ⟨src.fields, stageNames.take 1, [], [], []⟩
    else
    let clipped := extractbyextent spatial_extent repaired
    if isCanceled 2 then .canceled 2 ⟨src.fields, stageNames.take 2, [], [], []⟩
    else
    let transformed := (reprojectlayerNoop src.crs clipped).2
    if isCanceled 3 then .canceled 3 ⟨src.fields, stageNames.take 3, [], [], []⟩
    else
    let dissolved_1 := dissolve transformed
    if isCanceled 4 then .canceled 4 ⟨src.fields, stageNames.take 4, [], [], []⟩
    else
    let buffer_1 := buffer (-buffer_value) dissolved_1
    if isCanceled 5 then .canceled 5 ⟨src.fields, stageNames.take 5, [], [], []⟩
    else
    let buffer_2 := buffer buffer_value buffer_1
    if isCanceled 6 then .canceled 6 ⟨src.fields, stageNames.take 6, [], [], []⟩
    else
    let centroids := pointonsurface transformed
    if isCanceled 7 then .canceled 7 ⟨src.fields, stageNames.take 7, [], [], []⟩
    else
    let centroid_with_buffer_id := joinattributesbylocation centroids buffer_2
    if isCanceled 8 then .canceled 8 ⟨src.fields, stageNames.take 8, [], [], []⟩
    else
    let transformed_with_buffer_id := joinattributestable transformed centroid_with_buffer_id
    if isCanceled 9 then .canceled 9 ⟨src.fields, stageNames.take 9, [], [], []⟩
    else
    let dissolved_2 := dissolveByBufferFid transformed_with_buffer_id
    if isCanceled 10 then .canceled 10 ⟨src.fields, stageNames.take 10, [], [], []⟩
    else
    let dissolved_3 := addfieldtoattributestable "holes_count" dissolved_2
    if isCanceled 11 then .canceled 11 ⟨src.fields, stageNames.take 11, [], [], []⟩
    else
    let dissolved_4 := addfieldtoattributestable "holes_count" dissolved_3
    if isCanceled 12 then .canceled 12 ⟨src.fields, stageNames.take 12, [], [], []⟩
    else
    .done dest_id buffer_id centroids_id (counter_features_output dissolved_4)
      ⟨src.fields, stageNames.take 12, dissolved_4, [], []⟩

/-- The index of the first checkpoint at which the cancellation flag shows
true, if any of the thirteen checkpoints does. -/
def firstCancel (c : Nat → Bool) : Option Nat :=
  if c 0 then some 0 else if c 1 then some 1 else if c 2 then some 2
  else if c 3 then some 3 else if c 4 then some 4 else if c 5 then some 5
  else if c 6 then some 6 else if c 7 then some 7 else if c 8 then some 8
  else if c 9 then some 9 else if c 10 then some 10 else if c 11 then some 11
  else if c 12 then some 12 else none

end MorphBlocks

namespace MorphBlocks

lemma foldl_add_self_zero : ∀ (l : List BlockRow), l.foldl (fun acc _ => acc + acc) 0 = 0
  | [] => rfl
  | r :: l => by simpa using foldl_add_self_zero l

lemma counter_features_output_eq_zero (rows : List BlockRow) :
    counter_features_output rows = 0 :=
  foldl_add_self_zero rows


/-- Complete characterization of a run with a resolved source: it fails fast
when the primary sink is missing, stops (with nothing written and the first
`k` steps executed) at the first checkpoint whose poll shows cancellation,
and otherwise writes exactly `blocksOf` and reports the broken counter. -/
lemma processAlgorithm_some_eq (src : SourceLayer)
    (sinkOk sink_bufferOk sink_centroidsOk : Bool)
    (dest_id buffer_id centroids_id : String) (buffer_value : Int)
    (spatial_extent : Seg) (isCanceled : Nat → Bool) :
    processAlgorithm (some src) sinkOk sink_bufferOk sink_centroidsOk
        dest_id buffer_id centroids_id buffer_value spatial_extent isCanceled
      = if sinkOk = false then .err .invalidSink
        else
          match firstCancel isCanceled with
          | some k => .canceled k ⟨src.fields, stageNames.take k, [], [], []⟩
          | none => .done dest_id buffer_id centroids_id
              (counter_features_output
                (blocksOf src.features src.crs spatial_extent buffer_value))
              ⟨src.fields, stageNames.take 12,
               blocksOf src.features src.crs spatial_extent buffer_value, [], []⟩ := by
  by_cases hs : sinkOk = false
  · simp [processAlgorithm, hs]
  · simp only [processAlgorithm, hs, if_false]
    cases h0 : isCanceled 0 with
    | true => simp [firstCancel, hs, h0]
    | false =>
      cases h1 : isCanceled 1 with
      | true => simp [firstCancel, hs, h0, h1]
      | false =>
        cases h2 : isCanceled 2 with
        | true => simp [firstCancel, hs, h0, h1, h2]
        | false =>
          cases h3 : isCanceled 3 with
          | true => simp [firstCancel, hs, h0, h1, h2, h3]
          | false =>
            cases h4 : isCanceled 4 with
            | true => simp [firstCancel, hs, h0, h1, h2, h3, h4]
            | false =>
              cases h5 : isCanceled 5 with
              | true => simp [firstCancel, hs, h0, h1, h2, h3, h4, h5]
              | false =>
                cases h6 : isCanceled 6 with
                | true => simp [firstCancel, hs, h0, h1, h2, h3, h4, h5, h6]
                | false =>
                  cases h7 : isCanceled 7 with
                  | true => simp [firstCancel, hs, h0, h1, h2, h3, h4, h5, h6, h7]
                  | false =>
                    cases h8 : isCanceled 8 with
                    | true => simp [firstCancel, hs, h0, h1, h2, h3, h4, h5, h6, h7, h8]
                    | false =>
                      cases h9 : isCanceled 9 with
                      | true => simp [firstCancel, hs, h0, h1, h2, h3, h4, h5, h6, h7, h8, h9]
                      | false =>
                        cases h10 : isCanceled 10 with
                        | true => simp [firstCancel, hs, h0, h1, h2, h3, h4, h5, h6, h7, h8, h9, h10]
                        | false =>
                          cases h11 : isCanceled 11 with
                          | true => simp [firstCancel, hs, h0, h1, h2, h3, h4, h5, h6, h7, h8, h9, h10, h11]
                          | false =>
                            cases h12 : isCanceled 12 with
                            | true => simp [firstCancel, hs, h0, h1, h2, h3, h4, h5, h6, h7, h8, h9, h10, h11, h12]
                            | false =>
                              simp [firstCancel, blocksOf, pipelineJoined, hs, h0, h1, h2, h3, h4, h5, h6, h7, h8, h9, h10, h11, h12]

/-- Inversion for `firstCancel`: the returned index is a real checkpoint,
its poll showed true, and every earlier poll showed false. -/
lemma firstCancel_spec (c : Nat → Bool) (k : Nat) (h : firstCancel c = some k) :
    k ≤ 12 ∧ c k = true ∧ ∀ j, j < k → c j = false := by
  cases h0 : c 0 with
  | true =>
    simp [firstCancel, h0] at h
    subst h
    exact ⟨by decide, h0, fun j hj => by interval_cases j <;> assumption⟩
  | false =>
    cases h1 : c 1 with
    | true =>
      simp [firstCancel, h0, h1] at h
      subst h
      exact ⟨by decide, h1, fun j hj => by interval_cases j <;> assumption⟩
    | false =>
      cases h2 : c 2 with
      | true =>
        simp [firstCancel, h0, h1, h2] at h
        subst h
        exact ⟨by decide, h2, fun j hj => by interval_cases j <;> assumption⟩
      | false =>
        cases h3 : c 3 with
        | true =>
          simp [firstCancel, h0, h1, h2, h3] at h
          subst h
          exact ⟨by decide, h3, fun j hj => by interval_cases j <;> assumption⟩
        | false =>
          cases h4 : c 4 with
          | true =>
            simp [firstCancel, h0, h1, h2, h3, h4] at h
            subst h
            exact ⟨by decide, h4, fun j hj => by interval_cases j <;> assumption⟩
          | false =>
            cases h5 : c 5 with
            | true =>
              simp [firstCancel, h0, h1, h2, h3, h4, h5] at h
              subst h
              exact ⟨by decide, h5, fun j hj => by interval_cases j <;> assumption⟩
            | false =>
              cases h6 : c 6 with
              | true =>
                simp [firstCancel, h0, h1, h2, h3, h4, h5, h6] at h
                subst h
                exact ⟨by decide, h6, fun j hj => by interval_cases j <;> assumption⟩
              | false =>
                cases h7 : c 7 with
                | true =>
                  simp [firstCancel, h0, h1, h2, h3, h4, h5, h6, h7] at h
                  subst h
                  exact ⟨by decide, h7, fun j hj => by interval_cases j <;> assumption⟩
                | false =>
                  cases h8 : c 8 with
                  | true =>
                    simp [firstCancel, h0, h1, h2, h3, h4, h5, h6, h7, h8] at h
                    subst h
                    exact ⟨by decide, h8, fun j hj => by interval_cases j <;> assumption⟩
                  | false =>
                    cases h9 : c 9 with
                    | true =>
                      simp [firstCancel, h0, h1, h2, h3, h4, h5, h6, h7, h8, h9] at h
                      subst h
                      exact ⟨by decide, h9, fun j hj => by interval_cases j <;> assumption⟩
                    | false =>
                      cases h10 : c 10 with
                      | true =>
                        simp [firstCancel, h0, h1, h2, h3, h4, h5, h6, h7, h8, h9, h10] at h
                        subst h
                        exact ⟨by decide, h10, fun j hj => by interval_cases j <;> assumption⟩
                      | false =>
                        cases h11 : c 11 with
                        | true =>
                          simp [firstCancel, h0, h1, h2, h3, h4, h5, h6, h7, h8, h9, h10, h11] at h
                          subst h
                          exact ⟨by decide, h11, fun j hj => by interval_cases j <;> assumption⟩
                        | false =>
                          cases h12 : c 12 with
                          | true =>
                            simp [firstCancel, h0, h1, h2, h3, h4, h5, h6, h7, h8, h9, h10, h11, h12] at h
                            subst h
                            exact ⟨by decide, h12, fun j hj => by interval_cases j <;> assumption⟩
                          | false =>
                            simp [firstCancel, h0, h1, h2, h3, h4, h5, h6, h7, h8, h9, h10, h11, h12] at h

/-- C1: with `SEPARATE_DISJOINT:False` on the dissolve and on both buffer
calls, the eroded-then-dilated coverage is ONE multipart feature with one
`fid`, so connected components never receive distinct cluster ids.  Two
20-wide footprints separated by 12 units of empty space (more than
`2 * 5`), run with buffer distance 5, end up in a single output Block whose
geometry holds both components, instead of two Blocks with different ids. -/
theorem c1_twelve_apart_footprints_share_one_block :
    outWritesOf (processAlgorithm
        (some ⟨3857, ["fid"], 6, [⟨1, [⟨0, 20⟩]⟩, ⟨2, [⟨32, 52⟩]⟩]⟩)
        true true true "o" "b" "c" 5 ⟨-10, 100⟩ (fun _ => false))
      = [⟨1, some 1, [⟨0, 20⟩, ⟨32, 52⟩],
          [("holes_count", none), ("holes_count", none)]⟩] := by
  rfl

/-- C2: the annotation stage computes nothing.  Both
`native:addfieldtoattributestable` calls merely append an integer field
named `holes_count` (the second call, commented as `holes_total_area` in
the script, reuses the name `holes_count`); the field values stay NULL and
no interior-ring count or hole area is ever computed. -/
theorem c2_holes_fields_added_but_never_computed :
    outWritesOf (processAlgorithm
        (some ⟨3857, ["fid"], 6, [⟨1, [⟨0, 10⟩]⟩]⟩)
        true true true "o" "b" "c" 2 ⟨-5, 50⟩ (fun _ => false))
      = [⟨1, some 1, [⟨0, 10⟩],
          [("holes_count", none), ("holes_count", none)]⟩] := by
  rfl

/-- C3: the reprojection stage passes `OPERATION:'+proj=noop'`, so it never
changes a coordinate: for every source CRS the features come through the
transform untouched, and a run on a layer whose CRS (4326) differs from the
target 3857 still emits the input coordinates unchanged in its output
Block. -/
theorem c3_reproject_is_always_a_noop :
    (∀ (crs : Nat) (fs : List Feature), (reprojectlayerNoop crs fs).2 = fs)
    ∧ outWritesOf (processAlgorithm
        (some ⟨4326, ["fid"], 6, [⟨1, [⟨13, 14⟩]⟩]⟩)
        true true true "o" "b" "c" 1 ⟨0, 100⟩ (fun _ => false))
      = [⟨1, none, [⟨13, 14⟩],
          [("holes_count", none), ("holes_count", none)]⟩] := by
  exact ⟨fun _ _ => rfl, rfl⟩

/-- C10: the write-loop counter is only ever incremented by its own current
value starting from 0, so every run that reaches the output stage reports
`Number of processed blocks: 0`, whatever was written. -/
theorem c10_reported_block_count_is_always_zero
    (source : Option SourceLayer) (sinkOk sink_bufferOk sink_centroidsOk : Bool)
    (dest_id buffer_id centroids_id : String) (buffer_value : Int)
    (spatial_extent : Seg) (isCanceled : Nat → Bool) :
    (reportedOf (processAlgorithm source sinkOk sink_bufferOk sink_centroidsOk
        dest_id buffer_id centroids_id buffer_value spatial_extent isCanceled)).getD 0
      = 0 := by
  cases source with
  | none => rfl
  | some src =>
    rw [processAlgorithm_some_eq]
    by_cases hs : sinkOk = false
    · simp [hs, reportedOf]
    · cases hfc : firstCancel isCanceled <;>
        simp [hs, hfc, reportedOf, counter_features_output_eq_zero]


/-- C6: the run raises a fatal error exactly when the input feature source
cannot be resolved or the primary output sink cannot be created, the source
check coming first; in every other situation no error is raised.  The `err`
outcome carries no stage trace and no writes: the abort happens before any
processing step runs. -/
theorem c6_fatal_error_iff_invalid_source_or_sink
    (source : Option SourceLayer) (sinkOk sink_bufferOk sink_centroidsOk : Bool)
    (dest_id buffer_id centroids_id : String) (buffer_value : Int)
    (spatial_extent : Seg) (isCanceled : Nat → Bool) :
    errOf (processAlgorithm source sinkOk sink_bufferOk sink_centroidsOk
        dest_id buffer_id centroids_id buffer_value spatial_extent isCanceled)
      = if source.isNone then some ProcErr.invalidSource
        else if sinkOk = false then some ProcErr.invalidSink
        else none := by
  cases source with
  | none => rfl
  | some src =>
    rw [processAlgorithm_some_eq]
    by_cases hs : sinkOk = false
    · simp [hs, errOf]
    · cases hfc : firstCancel isCanceled <;> simp [hs, hfc, errOf]

/-- C9: no feature is ever written to the optional buffer-polygon sink or to
the optional representative-point sink, on any run whatsoever — the script
creates both sinks and returns their ids but contains no `addFeature` call
for either. -/
theorem c9_diagnostic_sinks_never_written
    (source : Option SourceLayer) (sinkOk sink_bufferOk sink_centroidsOk : Bool)
    (dest_id buffer_id centroids_id : String) (buffer_value : Int)
    (spatial_extent : Seg) (isCanceled : Nat → Bool) :
    bufferWritesOf (processAlgorithm source sinkOk sink_bufferOk sink_centroidsOk
        dest_id buffer_id centroids_id buffer_value spatial_extent isCanceled) = []
    ∧ centroidWritesOf (processAlgorithm source sinkOk sink_bufferOk sink_centroidsOk
        dest_id buffer_id centroids_id buffer_value spatial_extent isCanceled) = [] := by
  cases source with
  | none => exact ⟨rfl, rfl⟩
  | some src =>
    rw [processAlgorithm_some_eq]
    by_cases hs : sinkOk = false
    · simp [hs, bufferWritesOf, centroidWritesOf]
    · cases hfc : firstCancel isCanceled <;>
        simp [hs, hfc, bufferWritesOf, centroidWritesOf]

/-- C5: whenever a run stops with the `canceled` outcome, cancellation was
genuinely observed at a checkpoint: the checkpoint index is one of the
thirteen, its poll showed true while every earlier poll showed false,
exactly the first `k` native steps had been executed (one checkpoint
between each pair of consecutive steps), and nothing at all was written to
any of the three sinks — in particular not to the primary output sink. -/
theorem c5_cancellation_discards_all_work
    (source : Option SourceLayer) (sinkOk sink_bufferOk sink_centroidsOk : Bool)
    (dest_id buffer_id centroids_id : String) (buffer_value : Int)
    (spatial_extent : Seg) (isCanceled : Nat → Bool) (k : Nat) (st : RunState)
    (h : processAlgorithm source sinkOk sink_bufferOk sink_centroidsOk
        dest_id buffer_id centroids_id buffer_value spatial_extent isCanceled
      = .canceled k st) :
    st.outWrites = [] ∧ st.bufferWrites = [] ∧ st.centroidWrites = []
    ∧ k ≤ 12 ∧ isCanceled k = true ∧ (∀ j, j < k → isCanceled j = false)
    ∧ st.stagesRun = stageNames.take k := by
  cases source with
  | none => exact absurd h (by simp [processAlgorithm])
  | some src =>
    rw [processAlgorithm_some_eq] at h
    by_cases hs : sinkOk = false
    · rw [if_pos hs] at h
      exact absurd h (by simp)
    · rw [if_neg hs] at h
      cases hfc : firstCancel isCanceled with
      | none =>
        rw [hfc] at h
        exact absurd h (by simp)
      | some k0 =>
        rw [hfc] at h
        injection h with hk hst
        subst hk
        subst hst
        obtain ⟨h1, h2, h3⟩ := firstCancel_spec isCanceled k0 hfc
        exact ⟨rfl, rfl, rfl, h1, h2, h3, rfl⟩

/-- C5 witness: a concrete run whose third poll shows cancellation stops at
checkpoint 2 with two steps executed and nothing written. -/
theorem c5_cancellation_discards_all_work_witness :
    (processAlgorithm (some ⟨3857, ["fid"], 6, [⟨1, [⟨0, 10⟩]⟩]⟩) true true true
        "o" "b" "c" 2 ⟨-5, 50⟩ (fun n => decide (n = 2))
      = RunOutcome.canceled 2 ⟨["fid"], stageNames.take 2, [], [], []⟩)
    ∧ ((⟨["fid"], stageNames.take 2, [], [], []⟩ : RunState).outWrites = []
      ∧ (⟨["fid"], stageNames.take 2, [], [], []⟩ : RunState).bufferWrites = []
      ∧ (⟨["fid"], stageNames.take 2, [], [], []⟩ : RunState).centroidWrites = []
      ∧ 2 ≤ 12 ∧ (fun n => decide (n = 2)) 2 = true
      ∧ (∀ j, j < 2 → (fun n => decide (n = 2)) j = false)
      ∧ (⟨["fid"], stageNames.take 2, [], [], []⟩ : RunState).stagesRun
          = stageNames.take 2) :=
  ⟨rfl, c5_cancellation_discards_all_work
    (some ⟨3857, ["fid"], 6, [⟨1, [⟨0, 10⟩]⟩]⟩) true true true
    "o" "b" "c" 2 ⟨-5, 50⟩ (fun n => decide (n = 2)) 2
    ⟨["fid"], stageNames.take 2, [], [], []⟩ rfl⟩

/-- C4 counterexample: on a run over an input layer with schema `["fid"]`,
the primary output sink's declared schema is NOT the input schema plus
`holes_count` (nor plus `holes_total_area` as well) — the sink is created
with `source.fields()` alone, before any field is added. -/
theorem c4_output_schema_counterexample :
    ¬ (sinkFieldsOf (processAlgorithm (some ⟨3857, ["fid"], 6, [⟨1, [⟨0, 4⟩]⟩]⟩)
        true true true "o" "b" "c" 1 ⟨0, 50⟩ (fun _ => false))
      = ["fid", "holes_count"])
    ∧ ¬ (sinkFieldsOf (processAlgorithm (some ⟨3857, ["fid"], 6, [⟨1, [⟨0, 4⟩]⟩]⟩)
        true true true "o" "b" "c" 1 ⟨0, 50⟩ (fun _ => false))
      = ["fid", "holes_count", "holes_total_area"]) := by
  exact ⟨by decide, by decide⟩

/-- C4 as amended: the primary output block layer is declared with exactly
the input layer's schema (no `holes_count` or `holes_total_area` field is
declared on the sink), and the completed run writes exactly the block rows
to it — one feature per dissolve group, i.e. one per Block. -/
theorem c4_output_schema_is_input_schema
    (src : SourceLayer) (sinkOk sink_bufferOk sink_centroidsOk : Bool)
    (dest_id buffer_id centroids_id : String) (buffer_value : Int)
    (spatial_extent : Seg) (isCanceled : Nat → Bool)
    (o b c : String) (n : Nat) (st : RunState)
    (h : processAlgorithm (some src) sinkOk sink_bufferOk sink_centroidsOk
        dest_id buffer_id centroids_id buffer_value spatial_extent isCanceled
      = .done o b c n st) :
    st.sinkFields = src.fields
    ∧ st.outWrites = blocksOf src.features src.crs spatial_extent buffer_value
    ∧ st.outWrites.length
        = (groupKeys (pipelineJoined src.features src.crs spatial_extent buffer_value)).length := by
  rw [processAlgorithm_some_eq] at h
  by_cases hs : sinkOk = false
  · rw [if_pos hs] at h
    exact absurd h (by simp)
  · rw [if_neg hs] at h
    cases hfc : firstCancel isCanceled with
    | some k0 =>
      rw [hfc] at h
      exact absurd h (by simp)
    | none =>
      rw [hfc] at h
      injection h with h1 h2 h3 h4 h5
      subst h5
      refine ⟨rfl, rfl, ?_⟩
      simp [blocksOf, addfieldtoattributestable, dissolveByBufferFid]

/-- C4 witness: a concrete completed run, with the amended schema statement
instantiated on it. -/
theorem c4_output_schema_is_input_schema_witness :
    (processAlgorithm (some ⟨3857, ["name"], 6, [⟨1, [⟨0, 6⟩]⟩]⟩) true true true
        "o" "b" "c" 1 ⟨0, 50⟩ (fun _ => false)
      = RunOutcome.done "o" "b" "c" 0
          ⟨["name"], stageNames.take 12, blocksOf [⟨1, [⟨0, 6⟩]⟩] 3857 ⟨0, 50⟩ 1, [], []⟩)
    ∧ ((⟨["name"], stageNames.take 12, blocksOf [⟨1, [⟨0, 6⟩]⟩] 3857 ⟨0, 50⟩ 1, [], []⟩
          : RunState).sinkFields = ["name"]
      ∧ (⟨["name"], stageNames.take 12, blocksOf [⟨1, [⟨0, 6⟩]⟩] 3857 ⟨0, 50⟩ 1, [], []⟩
          : RunState).outWrites = blocksOf [⟨1, [⟨0, 6⟩]⟩] 3857 ⟨0, 50⟩ 1
      ∧ (⟨["name"], stageNames.take 12, blocksOf [⟨1, [⟨0, 6⟩]⟩] 3857 ⟨0, 50⟩ 1, [], []⟩
          : RunState).outWrites.length
          = (groupKeys (pipelineJoined [⟨1, [⟨0, 6⟩]⟩] 3857 ⟨0, 50⟩ 1)).length) :=
  ⟨rfl, c4_output_schema_is_input_schema
    ⟨3857, ["name"], 6, [⟨1, [⟨0, 6⟩]⟩]⟩ true true true "o" "b" "c" 1 ⟨0, 50⟩
    (fun _ => false) "o" "b" "c" 0
    ⟨["name"], stageNames.take 12, blocksOf [⟨1, [⟨0, 6⟩]⟩] 3857 ⟨0, 50⟩ 1, [], []⟩ rfl⟩


lemma mem_concatMap {α β : Type} (f : α → List β) (b : β) :
    ∀ (l : List α), b ∈ concatMap f l ↔ ∃ a, a ∈ l ∧ b ∈ f a := by
  intro l
  induction l with
  | nil => simp [concatMap]
  | cons x xs ih =>
    simp only [concatMap, List.mem_append, ih, List.mem_cons]
    constructor
    · rintro (h | ⟨a, ha, hb⟩)
      · exact ⟨x, Or.inl rfl, h⟩
      · exact ⟨a, Or.inr ha, hb⟩
    · rintro ⟨a, (rfl | ha), hb⟩
      · exact Or.inl hb
      · exact Or.inr ⟨a, ha, hb⟩

lemma locRows_fid (polys : List Feature) (c : PointFeature) :
    ∀ r ∈ locRows polys c, r.fid = c.fid := by
  intro r hr
  unfold locRows at hr
  cases h : locMatches c polys with
  | nil =>
    rw [h] at hr
    simp at hr
    rw [hr]
  | cons m ms =>
    rw [h] at hr
    obtain ⟨b, hb, hrb⟩ := List.mem_map.mp hr
    rw [← hrb]

lemma joinRow_fid (pts : List TaggedPoint) (f : Feature) : (joinRow pts f).fid = f.fid := by
  unfold joinRow
  cases pts.find? (fun c => c.fid == f.fid) <;> rfl

lemma joinattributestable_map_fid (fs : List Feature) (pts : List TaggedPoint) :
    (joinattributestable fs pts).map TaggedFeature.fid = fs.map Feature.fid := by
  induction fs with
  | nil => rfl
  | cons f fs ih =>
    simp only [joinattributestable, List.map_cons] at ih ⊢
    rw [joinRow_fid, ih]

lemma find?_append_of_none {α : Type} (p : α → Bool) (l2 : List α) :
    ∀ (l1 : List α), (∀ x ∈ l1, p x = false) → (l1 ++ l2).find? p = l2.find? p := by
  intro l1
  induction l1 with
  | nil => intro h; rfl
  | cons a l ih =>
    intro h
    have ha : ¬ p a = true := by simp [h a (List.mem_cons_self a l)]
    rw [List.cons_append, List.find?_cons_of_neg _ ha]
    exact ih fun x hx => h x (List.mem_cons_of_mem a hx)

lemma tagged_find_unmatched (polys : List Feature) :
    ∀ (fs : List Feature) (f : Feature), f ∈ fs →
      (∀ g ∈ fs, g.fid = f.fid → g = f) →
      locMatches ⟨f.fid, pointOnSurfaceGeom f.geom⟩ polys = [] →
      (joinattributesbylocation (pointonsurface fs) polys).find? (fun c => c.fid == f.fid)
        = some ⟨f.fid, pointOnSurfaceGeom f.geom, none⟩ := by
  intro fs
  induction fs with
  | nil => intro f hf _ _; cases hf
  | cons g gs ih =>
    intro f hf hfid hmiss
    by_cases hgf : g.fid = f.fid
    · have hg : g = f := hfid g (List.mem_cons_self g gs) hgf
      subst hg
      show (locRows polys ⟨g.fid, pointOnSurfaceGeom g.geom⟩
          ++ joinattributesbylocation (pointonsurface gs) polys).find? _ = _
      unfold locRows
      rw [hmiss]
      rw [List.singleton_append, List.find?_cons_of_pos _ (by simp)]
    · have hf2 : f ∈ gs := by
        cases List.mem_cons.mp hf with
        | inl h => exact absurd (by rw [h]) hgf
        | inr h => exact h
      have hrows : ∀ r ∈ locRows polys ⟨g.fid, pointOnSurfaceGeom g.geom⟩,
          (fun c => c.fid == f.fid) r = false := by
        intro r hr
        have hrf := locRows_fid polys ⟨g.fid, pointOnSurfaceGeom g.geom⟩ r hr
        simp only [hrf]
        simp [hgf]
      show (locRows polys ⟨g.fid, pointOnSurfaceGeom g.geom⟩
          ++ joinattributesbylocation (pointonsurface gs) polys).find? _ = _
      rw [find?_append_of_none _ _ _ hrows]
      exact ih f hf2 (fun g2 hg2 he => hfid g2 (List.mem_cons_of_mem g hg2) he) hmiss

lemma mem_groupKeys_of_mem : ∀ (rows : List TaggedFeature) (r : TaggedFeature),
    r ∈ rows → r.buffer_fid ∈ groupKeys rows := by
  intro rows
  induction rows with
  | nil => intro r hr; cases hr
  | cons x xs ih =>
    intro r hr
    simp only [groupKeys]
    cases List.mem_cons.mp hr with
    | inl h => rw [h]; exact List.mem_cons_self _ _
    | inr h =>
      by_cases hk : r.buffer_fid = x.buffer_fid
      · rw [hk]; exact List.mem_cons_self _ _
      · exact List.mem_cons_of_mem _ (List.mem_filter.mpr ⟨ih r h, by simp [hk]⟩)

lemma dissolveByBufferFid_geom (rows : List TaggedFeature) :
    ∀ b ∈ dissolveByBufferFid rows,
      b.geom = normalize (concatMap TaggedFeature.geom (groupRows rows b.buffer_fid)) := by
  intro b hb
  obtain ⟨k, hk, hbk⟩ := List.mem_map.mp hb
  rw [← hbk]


/-- C7: a footprint whose representative point falls inside no cluster
polygon is not dropped anywhere: the spatial join keeps its point row with
a NULL `buffer_fid`, the attribute join keeps the footprint itself with a
NULL `buffer_fid` (and keeps every row: one output row per input
footprint), and the final dissolve puts all NULL-id rows into their own
group — a Block whose `buffer_fid` is NULL and whose geometry is the union
of exactly the NULL-id rows. -/
theorem c7_unmatched_footprint_kept_in_null_group
    (fs polys : List Feature) (f : Feature)
    (hmem : f ∈ fs)
    (hfid : ∀ g ∈ fs, g.fid = f.fid → g = f)
    (hmiss : locMatches ⟨f.fid, pointOnSurfaceGeom f.geom⟩ polys = []) :
    (⟨f.fid, pointOnSurfaceGeom f.geom, none⟩ : TaggedPoint)
        ∈ joinattributesbylocation (pointonsurface fs) polys
    ∧ (⟨f.fid, f.geom, none⟩ : TaggedFeature)
        ∈ joinattributestable fs (joinattributesbylocation (pointonsurface fs) polys)
    ∧ (joinattributestable fs (joinattributesbylocation (pointonsurface fs) polys)).length
        = fs.length
    ∧ ∃ b ∈ dissolveByBufferFid
          (joinattributestable fs (joinattributesbylocation (pointonsurface fs) polys)),
        b.buffer_fid = none
        ∧ b.geom = normalize (concatMap TaggedFeature.geom
            (groupRows
              (joinattributestable fs (joinattributesbylocation (pointonsurface fs) polys))
              none)) := by
  have hfind := tagged_find_unmatched polys fs f hmem hfid hmiss
  have hrow : joinRow (joinattributesbylocation (pointonsurface fs) polys) f
      = ⟨f.fid, f.geom, none⟩ := by
    unfold joinRow
    rw [hfind]
  have h1 : (⟨f.fid, pointOnSurfaceGeom f.geom, none⟩ : TaggedPoint)
      ∈ joinattributesbylocation (pointonsurface fs) polys := by
    refine (mem_concatMap (locRows polys) _ (pointonsurface fs)).mpr
      ⟨⟨f.fid, pointOnSurfaceGeom f.geom⟩, List.mem_map_of_mem _ hmem, ?_⟩
    unfold locRows
    rw [hmiss]
    exact List.mem_singleton.mpr rfl
  have h2 : (⟨f.fid, f.geom, none⟩ : TaggedFeature)
      ∈ joinattributestable fs (joinattributesbylocation (pointonsurface fs) polys) := by
    rw [← hrow]
    exact List.mem_map_of_mem _ hmem
  refine ⟨h1, h2, List.length_map _ _, ?_⟩
  have hkey : (none : Option Nat) ∈ groupKeys
      (joinattributestable fs (joinattributesbylocation (pointonsurface fs) polys)) :=
    mem_groupKeys_of_mem _ ⟨f.fid, f.geom, none⟩ h2
  exact ⟨_, List.mem_map_of_mem _ hkey, rfl, rfl⟩

/-- C7 witness: one footprint whose representative point misses the single
far-away cluster polygon. -/
theorem c7_unmatched_footprint_kept_in_null_group_witness :
    ((⟨1, [⟨0, 2⟩]⟩ : Feature) ∈ [(⟨1, [⟨0, 2⟩]⟩ : Feature)]
      ∧ (∀ g ∈ [(⟨1, [⟨0, 2⟩]⟩ : Feature)], g.fid = 1 → g = ⟨1, [⟨0, 2⟩]⟩)
      ∧ locMatches ⟨1, pointOnSurfaceGeom [⟨0, 2⟩]⟩ [⟨9, [⟨100, 120⟩]⟩] = [])
    ∧ ((⟨1, pointOnSurfaceGeom [⟨0, 2⟩], none⟩ : TaggedPoint)
        ∈ joinattributesbylocation (pointonsurface [⟨1, [⟨0, 2⟩]⟩]) [⟨9, [⟨100, 120⟩]⟩]
      ∧ (⟨1, [⟨0, 2⟩], none⟩ : TaggedFeature)
        ∈ joinattributestable [⟨1, [⟨0, 2⟩]⟩]
            (joinattributesbylocation (pointonsurface [⟨1, [⟨0, 2⟩]⟩]) [⟨9, [⟨100, 120⟩]⟩])
      ∧ (joinattributestable [⟨1, [⟨0, 2⟩]⟩]
            (joinattributesbylocation (pointonsurface [⟨1, [⟨0, 2⟩]⟩])
              [⟨9, [⟨100, 120⟩]⟩])).length = [(⟨1, [⟨0, 2⟩]⟩ : Feature)].length
      ∧ ∃ b ∈ dissolveByBufferFid
            (joinattributestable [⟨1, [⟨0, 2⟩]⟩]
              (joinattributesbylocation (pointonsurface [⟨1, [⟨0, 2⟩]⟩])
                [⟨9, [⟨100, 120⟩]⟩])),
          b.buffer_fid = none
          ∧ b.geom = normalize (concatMap TaggedFeature.geom
              (groupRows
                (joinattributestable [⟨1, [⟨0, 2⟩]⟩]
                  (joinattributesbylocation (pointonsurface [⟨1, [⟨0, 2⟩]⟩])
                    [⟨9, [⟨100, 120⟩]⟩]))
                none))) :=
  ⟨⟨by decide, by decide, by decide⟩,
    c7_unmatched_footprint_kept_in_null_group [⟨1, [⟨0, 2⟩]⟩] [⟨9, [⟨100, 120⟩]⟩]
      ⟨1, [⟨0, 2⟩]⟩ (by decide) (by decide) (by decide)⟩

/-- C8: the clip step is a pure membership filter — every feature it keeps
is literally one of its input features, geometry untouched — and a
footprint lying entirely outside the extent (all parts nonempty and none
intersecting the extent) is dropped by the clip, absent from the tagged
footprints every later step works on, and therefore contributes to no
output Block: each Block's geometry is built exclusively from the rows of
its own dissolve group, all of which survived the clip. -/
theorem c8_clip_is_membership_filter_and_excludes
    (features : List Feature) (crs : Nat) (spatial_extent : Seg) (buffer_value : Int)
    (f : Feature)
    (hmem : f ∈ features)
    (hfid : ∀ g ∈ features, g.fid = f.fid → g = f)
    (hval : ∀ s ∈ f.geom, s.nonempty = true)
    (hout : ∀ s ∈ f.geom, segIntersects s spatial_extent = false) :
    (∀ g ∈ extractbyextent spatial_extent (fixgeometries features),
        g ∈ fixgeometries features)
    ∧ f ∉ extractbyextent spatial_extent (fixgeometries features)
    ∧ f.fid ∉ (extractbyextent spatial_extent (fixgeometries features)).map Feature.fid
    ∧ f.fid ∉ (pipelineJoined features crs spatial_extent buffer_value).map TaggedFeature.fid
    ∧ ∀ b ∈ dissolveByBufferFid (pipelineJoined features crs spatial_extent buffer_value),
        b.geom = normalize (concatMap TaggedFeature.geom
          (groupRows (pipelineJoined features crs spatial_extent buffer_value)
            b.buffer_fid)) := by
  have hpred : ∀ (g : Geometry), (∀ s ∈ g, s ∈ f.geom) →
      (g.any fun s => s.nonempty && segIntersects s spatial_extent) = false := by
    intro g hg
    rw [List.any_eq_false]
    intro s hs
    simp [hout s (hg s hs)]
  have h2 : f ∉ extractbyextent spatial_extent (fixgeometries features) := by
    intro hf
    have hp := (List.mem_filter.mp hf).2
    rw [hpred f.geom (fun s hs => hs)] at hp
    exact Bool.false_ne_true hp
  have h3 : f.fid ∉ (extractbyextent spatial_extent (fixgeometries features)).map
      Feature.fid := by
    intro hin
    obtain ⟨g, hg, hgf⟩ := List.mem_map.mp hin
    have hg1 := (List.mem_filter.mp hg).1
    have hp := (List.mem_filter.mp hg).2
    obtain ⟨g0, hg0, hgg⟩ := List.mem_map.mp hg1
    have hg0f : g0 = f := by
      refine hfid g0 hg0 ?_
      rw [← hgf, ← hgg]
    subst hg0f
    rw [← hgg] at hp
    have hfix : g0.geom.filter Seg.nonempty = g0.geom :=
      List.filter_eq_self.mpr hval
    simp only [hfix] at hp
    rw [hpred g0.geom (fun s hs => hs)] at hp
    exact Bool.false_ne_true hp
  refine ⟨fun g hg => (List.mem_filter.mp hg).1, h2, h3, ?_, dissolveByBufferFid_geom _⟩
  show f.fid ∉ (joinattributestable
      (reprojectlayerNoop crs (extractbyextent spatial_extent (fixgeometries features))).2
      (joinattributesbylocation
        (pointonsurface
          (reprojectlayerNoop crs (extractbyextent spatial_extent (fixgeometries features))).2)
        (buffer buffer_value (buffer (-buffer_value)
          (dissolve
            (reprojectlayerNoop crs
              (extractbyextent spatial_extent (fixgeometries features))).2))))).map
      TaggedFeature.fid
  rw [joinattributestable_map_fid]
  exact h3

/-- C8 witness: a footprint far left of the extent, next to one inside it. -/
theorem c8_clip_is_membership_filter_and_excludes_witness :
    ((⟨1, [⟨0, 2⟩]⟩ : Feature) ∈ [(⟨1, [⟨0, 2⟩]⟩ : Feature), ⟨2, [⟨50, 60⟩]⟩]
      ∧ (∀ g ∈ [(⟨1, [⟨0, 2⟩]⟩ : Feature), ⟨2, [⟨50, 60⟩]⟩], g.fid = 1 → g = ⟨1, [⟨0, 2⟩]⟩)
      ∧ (∀ s ∈ [(⟨0, 2⟩ : Seg)], s.nonempty = true)
      ∧ (∀ s ∈ [(⟨0, 2⟩ : Seg)], segIntersects s ⟨40, 100⟩ = false))
    ∧ ((∀ g ∈ extractbyextent ⟨40, 100⟩ (fixgeometries [⟨1, [⟨0, 2⟩]⟩, ⟨2, [⟨50, 60⟩]⟩]),
          g ∈ fixgeometries [⟨1, [⟨0, 2⟩]⟩, ⟨2, [⟨50, 60⟩]⟩])
      ∧ (⟨1, [⟨0, 2⟩]⟩ : Feature)
          ∉ extractbyextent ⟨40, 100⟩ (fixgeometries [⟨1, [⟨0, 2⟩]⟩, ⟨2, [⟨50, 60⟩]⟩])
      ∧ (1 : Nat) ∉ (extractbyextent ⟨40, 100⟩
          (fixgeometries [⟨1, [⟨0, 2⟩]⟩, ⟨2, [⟨50, 60⟩]⟩])).map Feature.fid
      ∧ (1 : Nat) ∉ (pipelineJoined [⟨1, [⟨0, 2⟩]⟩, ⟨2, [⟨50, 60⟩]⟩] 3857 ⟨40, 100⟩ 3).map
          TaggedFeature.fid
      ∧ ∀ b ∈ dissolveByBufferFid
            (pipelineJoined [⟨1, [⟨0, 2⟩]⟩, ⟨2, [⟨50, 60⟩]⟩] 3857 ⟨40, 100⟩ 3),
          b.geom = normalize (concatMap TaggedFeature.geom
            (groupRows (pipelineJoined [⟨1, [⟨0, 2⟩]⟩, ⟨2, [⟨50, 60⟩]⟩] 3857 ⟨40, 100⟩ 3)
              b.buffer_fid))) :=
  ⟨⟨by decide, by decide, by decide, by decide⟩,
    c8_clip_is_membership_filter_and_excludes [⟨1, [⟨0, 2⟩]⟩, ⟨2, [⟨50, 60⟩]⟩] 3857
      ⟨40, 100⟩ 3 ⟨1, [⟨0, 2⟩]⟩ (by decide) (by decide) (by decide) (by decide)⟩

end MorphBlocks
